import Mathlib

/-!
Shallow embedding of the BookSaloon backend appointment core
(src/controllers/appointmentController.js) : data model, slot engine
(getAvailableSlots), appointment lifecycle operations
(createAppointment, updateAppointmentStatus, verifyCompletion,
markAsCompleted, markAsNoShow, cleanupExpiredAppointments,
claimAppointment) and the notification dispatch boundary (notifyUser).
Timestamps are epoch milliseconds (Int); durations are minutes (Nat).
-/

namespace BookSaloon

/-- Appointment status enum from the Prisma schema. -/
inductive Status where
  | PENDING
  | CONFIRMED
  | CANCELLED
  | COMPLETED
  | NO_SHOW
deriving DecidableEq, Repr

/-- A service row: `duration` is minutes; the controller applies
`service.duration || 30`, so an unset (or zero) duration falls back to 30. -/
structure Service where
  id : Nat
  duration : Option Nat
deriving DecidableEq, Repr

/-- A business row (only the fields the appointment core reads). -/
structure Business where
  id : Nat
  ownerId : Nat
deriving DecidableEq, Repr

/-- A staff row (only the fields the appointment core reads);
`userId` links the staff profile to a user account. -/
structure Staff where
  id : Nat
  userId : Nat
  businessId : Nat
deriving DecidableEq, Repr

/-- A BusinessHour row: one per (business, weekday); start/end are the
parsed "HH:mm" wall-clock open and close times. -/
structure BusinessHour where
  businessId : Nat
  dayOfWeek : Int
  startHour : Nat
  startMinute : Nat
  endHour : Nat
  endMinute : Nat
  isOpen : Bool
deriving DecidableEq, Repr

/-- An appointment row. `date` is the start timestamp in epoch ms. -/
structure Appointment where
  id : Nat
  customerId : Nat
  businessId : Nat
  serviceId : Nat
  staffId : Option Nat
  date : Int
  status : Status
  completionOtp : Option String
  otpExpires : Option Int
deriving DecidableEq, Repr

/-- The acting user from `req.user` (role is the string from the JWT). -/
structure User where
  id : Nat
  role : String
deriving DecidableEq, Repr

/-- The persistent store the Prisma client reads and writes. -/
structure DB where
  businesses : List Business
  services : List Service
  staffs : List Staff
  hours : List BusinessHour
  appointments : List Appointment
deriving DecidableEq, Repr

/-- An HTTP-style error: status code and message. -/
abbrev Err := Nat × String

/-- One entry of the slot query response:
`{ time: currentSlot.toISOString(), available: !isBooked }`. -/
structure Slot where
  time : Int
  available : Bool
deriving DecidableEq, Repr

/-- JS `d || 30` on a nullable duration: null/undefined and 0 are falsy. -/
def jsDuration : Option Nat → Nat
  | none => 30
  | some d => if d = 0 then 30 else d

/-- `prisma.service.findUnique({ where: { id } })`. -/
def findService (services : List Service) (id : Nat) : Option Service :=
  services.find? (fun s => decide (s.id = id))

/-- `apt.service?.duration || 30`: resolve the appointment's service and
apply the fallback. -/
def aptServiceDuration (services : List Service) (a : Appointment) : Nat :=
  match findService services a.serviceId with
  | some s => jsDuration s.duration
  | none => 30

/-- `aptEnd = aptStart + aptDuration * 60000`. -/
def aptEndTime (services : List Service) (a : Appointment) : Int :=
  a.date + (aptServiceDuration services a : Nat) * 60000

/-- The loop-body overlap test of getAvailableSlots:
`appointments.some(apt => currentSlot < aptEnd && slotEnd > aptStart)`. -/
def slotIsBooked (services : List Service) (appts : List Appointment)
    (slotStart slotEnd : Int) : Bool :=
  appts.any fun apt =>
    decide (slotStart < aptEndTime services apt ∧ slotEnd > apt.date)

/-- The findMany filter of getAvailableSlots: same business, date within
the selected day, status in PENDING/CONFIRMED. -/
def onSelectedDay (businessId : Nat) (startOfDay endOfDay : Int)
    (a : Appointment) : Bool :=
  decide (a.businessId = businessId ∧ startOfDay ≤ a.date ∧ a.date ≤ endOfDay ∧
    (a.status = Status.PENDING ∨ a.status = Status.CONFIRMED))

/-- `selectedDate.getDay()` for a timestamp at local midnight
(epoch day 0 was a Thursday, weekday 4). -/
def jsDayOfWeek (startOfDay : Int) : Int :=
  (startOfDay / 86400000 + 4) % 7

/-- The slot-generation while loop of getAvailableSlots: step 30 minutes,
skip candidates before `now`, stop once the candidate's end passes the
closing time, and flag each emitted candidate with `!isBooked`. -/
def genSlots (services : List Service) (appts : List Appointment)
    (serviceDuration : Nat) (now businessEnd : Int) (cur : Int) : List Slot :=
  if cur < businessEnd then
    if cur < now then
      genSlots services appts serviceDuration now businessEnd (cur + 30 * 60000)
    else
      if businessEnd < cur + (serviceDuration : Nat) * 60000 then []
      else
        { time := cur,
          available := ! slotIsBooked services appts cur (cur + (serviceDuration : Nat) * 60000) } ::
          genSlots services appts serviceDuration now businessEnd (cur + 30 * 60000)
  else []
termination_by (businessEnd - cur).toNat
decreasing_by
  all_goals
    simp_wf
    omega

/-- getAvailableSlots, parameterized by the requested day's local
midnight (`dateStartOfDay`) and the current clock (`now`). -/
def getAvailableSlots (db : DB) (businessId serviceId : Nat)
    (dateStartOfDay now : Int) : Except Err (List Slot) :=
  match findService db.services serviceId with
  | none => Except.error (404, "Service not found")
  | some service =>
    let serviceDuration := jsDuration service.duration
    let startOfDay := dateStartOfDay
    let endOfDay := dateStartOfDay + 86399999
    if endOfDay < now then Except.ok []
    else
      let dayOfWeek := jsDayOfWeek dateStartOfDay
      match db.hours.find? (fun h =>
          decide (h.businessId = businessId ∧ h.dayOfWeek = dayOfWeek)) with
      | none => Except.ok []
      | some businessHour =>
        if ! businessHour.isOpen then Except.ok []
        else
          let businessStart : Int := dateStartOfDay +
            ((businessHour.startHour * 60 + businessHour.startMinute) * 60000 : Nat)
          let businessEnd : Int := dateStartOfDay +
            ((businessHour.endHour * 60 + businessHour.endMinute) * 60000 : Nat)
          let appts := db.appointments.filter (onSelectedDay businessId startOfDay endOfDay)
          Except.ok (genSlots db.services appts serviceDuration now businessEnd businessStart)

/-- `prisma.appointment.findUnique({ where: { id } })`. -/
def findAppointment (db : DB) (id : Nat) : Option Appointment :=
  db.appointments.find? (fun a => decide (a.id = id))

/-- `prisma.business.findUnique({ where: { id } })` (the `include:
business` relation of an appointment lookup). -/
def findBusiness (db : DB) (id : Nat) : Option Business :=
  db.businesses.find? (fun b => decide (b.id = id))

/-- `prisma.staff.findUnique({ where: { userId } })`. -/
def findStaffByUser (db : DB) (userId : Nat) : Option Staff :=
  db.staffs.find? (fun s => decide (s.userId = userId))

/-- `prisma.staff.findUnique({ where: { id } })` (getStaffUser). -/
def findStaffById (db : DB) (id : Nat) : Option Staff :=
  db.staffs.find? (fun s => decide (s.id = id))

/-- The per-endpoint staff check: the acting user has role STAFF, a staff
profile resolves for them, and the appointment's staffId equals that
profile's id (`staffProfile && appointment.staffId === staffProfile.id`). -/
def staffAssigned (db : DB) (user : User) (apt : Appointment) : Bool :=
  if user.role = "STAFF" then
    match findStaffByUser db user.id with
    | some staffProfile => decide (apt.staffId = some staffProfile.id)
    | none => false
  else false

/-- `prisma.appointment.update({ where: { id }, data })`: rewrite the row
with the given id, leave every other row alone. -/
def updateAppointment (db : DB) (id : Nat) (f : Appointment → Appointment) : DB :=
  { db with appointments := db.appointments.map (fun a => if a.id = id then f a else a) }

/-- The notification dispatch boundary: sending to a user either succeeds
or raises an error message. -/
abbrev Dispatcher := Nat → String → Except String Unit

/-- The always-succeeding dispatcher. -/
def okDispatcher : Dispatcher := fun _ _ => Except.ok ()

/-- notifyUser: attempt the dispatch; an error is caught and logged
(`console.error`), never rethrown. The return value is the logged error,
if any — nothing else of the operation depends on it. -/
def notifyUser (d : Dispatcher) (userId : Nat) (eventType : String) : Option String :=
  match d userId eventType with
  | Except.ok _ => none
  | Except.error e => some e

/-- Parse one of the four accepted status strings (callers guard with the
`includes` check first, so the PENDING default is never reached). -/
def statusOfString (s : String) : Status :=
  if s = "CONFIRMED" then Status.CONFIRMED
  else if s = "CANCELLED" then Status.CANCELLED
  else if s = "COMPLETED" then Status.COMPLETED
  else if s = "NO_SHOW" then Status.NO_SHOW
  else Status.PENDING

/-- updateAppointmentStatus with the notification dispatch threaded
through: the first component is the (store, response) outcome, the second
is the list of per-notification log entries. -/
def updateAppointmentStatusFull (d : Dispatcher) (db : DB) (user : User)
    (id : Nat) (status : String) : (DB × Except Err Appointment) × List (Option String) :=
  if ¬ (status = "CONFIRMED" ∨ status = "CANCELLED" ∨
        status = "COMPLETED" ∨ status = "NO_SHOW") then
    ((db, Except.error (400, "Invalid status")), [])
  else
    match findAppointment db id with
    | none => ((db, Except.error (404, "Appointment not found")), [])
    | some apt =>
      match findBusiness db apt.businessId with
      | none => ((db, Except.error (500, "Server error")), [])
      | some business =>
        let isOwner := business.ownerId = user.id
        let isCustomer := apt.customerId = user.id
        let isStaff := staffAssigned db user apt
        if ¬ (isOwner ∨ isCustomer ∨ isStaff = true) then
          ((db, Except.error (403, "Not authorized")), [])
        else if isCustomer ∧ status ≠ "CANCELLED" then
          ((db, Except.error (403, "Customers can only cancel appointments")), [])
        else if isStaff = true ∧ status = "CANCELLED" then
          ((db, Except.error (403, "Staff cannot cancel appointments. Please contact the owner.")), [])
        else if isStaff = true ∧ status ≠ "CONFIRMED" then
          ((db, Except.error (403, "Staff can only confirm appointments")), [])
        else
          let newStatus := statusOfString status
          let updated := { apt with status := newStatus }
          let db2 := updateAppointment db id (fun a => { a with status := newStatus })
          let logs :=
            (if status = "CONFIRMED" then
              [notifyUser d updated.customerId "APPOINTMENT_CONFIRMED"] ++
                (if isStaff then [notifyUser d business.ownerId "APPOINTMENT_CONFIRMED"] else [])
            else []) ++
            (if status = "CANCELLED" then
              (if isCustomer then
                [notifyUser d business.ownerId "APPOINTMENT_CANCELLED"] ++
                  (match updated.staffId with
                   | some sid =>
                     match findStaffById db sid with
                     | some st => [notifyUser d st.userId "APPOINTMENT_CANCELLED"]
                     | none => []
                   | none => [])
              else
                [notifyUser d updated.customerId "APPOINTMENT_CANCELLED"] ++
                  (if isStaff then [notifyUser d business.ownerId "APPOINTMENT_CANCELLED"] else []))
            else []) ++
            (if status = "COMPLETED" then
              [notifyUser d updated.customerId "APPOINTMENT_COMPLETED"] ++
                (if isStaff then [notifyUser d business.ownerId "APPOINTMENT_COMPLETED"] else [])
            else []) ++
            (if status = "NO_SHOW" then
              [notifyUser d updated.customerId "APPOINTMENT_NO_SHOW"] ++
                (if isStaff then [notifyUser d business.ownerId "APPOINTMENT_NO_SHOW"] else [])
            else [])
          ((db2, Except.ok updated), logs)

/-- The (store, response) outcome of updateAppointmentStatus. -/
def updateAppointmentStatus (db : DB) (user : User) (id : Nat)
    (status : String) : DB × Except Err Appointment :=
  (updateAppointmentStatusFull okDispatcher db user id status).1

/-- verifyCompletion with the notification dispatch threaded through. -/
def verifyCompletionFull (d : Dispatcher) (db : DB) (user : User) (id : Nat)
    (otp : Option String) : (DB × Except Err Appointment) × List (Option String) :=
  match findAppointment db id with
  | none => ((db, Except.error (404, "Appointment not found")), [])
  | some apt =>
    match findBusiness db apt.businessId with
    | none => ((db, Except.error (500, "Server error")), [])
    | some business =>
      let isOwner := business.ownerId = user.id
      let isStaff := staffAssigned db user apt
      if ¬ (isOwner ∨ isStaff = true) then
        ((db, Except.error (403, "Not authorized")), [])
      else if apt.completionOtp ≠ otp then
        ((db, Except.error (400, "Invalid OTP")), [])
      else
        let updated := { apt with status := Status.COMPLETED,
                                  completionOtp := none, otpExpires := none }
        let db2 := updateAppointment db id (fun a =>
          { a with status := Status.COMPLETED, completionOtp := none, otpExpires := none })
        ((db2, Except.ok updated), [notifyUser d apt.customerId "APPOINTMENT_COMPLETED"])

/-- The (store, response) outcome of verifyCompletion. -/
def verifyCompletion (db : DB) (user : User) (id : Nat)
    (otp : Option String) : DB × Except Err Appointment :=
  (verifyCompletionFull okDispatcher db user id otp).1

/-- markAsCompleted: owner or assigned staff set status COMPLETED. -/
def markAsCompleted (db : DB) (user : User) (id : Nat) : DB × Except Err Appointment :=
  match findAppointment db id with
  | none => (db, Except.error (404, "Appointment not found"))
  | some apt =>
    match findBusiness db apt.businessId with
    | none => (db, Except.error (500, "Server error"))
    | some business =>
      let isOwner := business.ownerId = user.id
      let isStaff := staffAssigned db user apt
      if ¬ (isOwner ∨ isStaff = true) then
        (db, Except.error (403, "Not authorized"))
      else
        (updateAppointment db id (fun a => { a with status := Status.COMPLETED }),
         Except.ok { apt with status := Status.COMPLETED })

/-- markAsNoShow: owner or assigned staff set status NO_SHOW. -/
def markAsNoShow (db : DB) (user : User) (id : Nat) : DB × Except Err Appointment :=
  match findAppointment db id with
  | none => (db, Except.error (404, "Appointment not found"))
  | some apt =>
    match findBusiness db apt.businessId with
    | none => (db, Except.error (500, "Server error"))
    | some business =>
      let isOwner := business.ownerId = user.id
      let isStaff := staffAssigned db user apt
      if ¬ (isOwner ∨ isStaff = true) then
        (db, Except.error (403, "Not authorized"))
      else
        (updateAppointment db id (fun a => { a with status := Status.NO_SHOW }),
         Except.ok { apt with status := Status.NO_SHOW })

/-- claimAppointment with the notification dispatch threaded through. -/
def claimAppointmentFull (d : Dispatcher) (db : DB) (user : User)
    (id : Nat) : (DB × Except Err Appointment) × List (Option String) :=
  match findStaffByUser db user.id with
  | none => ((db, Except.error (404, "Staff profile not found")), [])
  | some staff =>
    match findAppointment db id with
    | none => ((db, Except.error (404, "Appointment not found")), [])
    | some apt =>
      if apt.businessId ≠ staff.businessId then
        ((db, Except.error (403, "Not authorized - different business")), [])
      else if apt.staffId ≠ none then
        ((db, Except.error (400, "Appointment already assigned")), [])
      else
        let updated := { apt with staffId := some staff.id }
        let db2 := updateAppointment db id (fun a => { a with staffId := some staff.id })
        let logs :=
          (match findBusiness db apt.businessId with
           | some b => [notifyUser d b.ownerId "STAFF_CLAIMED"]
           | none => []) ++
          [notifyUser d updated.customerId "APPOINTMENT_ASSIGNED"]
        ((db2, Except.ok updated), logs)

/-- The (store, response) outcome of claimAppointment. -/
def claimAppointment (db : DB) (user : User) (id : Nat) : DB × Except Err Appointment :=
  (claimAppointmentFull okDispatcher db user id).1

/-- createAppointment: after the required-fields check the row is created
directly in PENDING state; no hours or overlap validation is performed. -/
def createAppointment (db : DB) (user : User) (newId : Nat)
    (businessId serviceId : Option Nat) (staffId : Option Nat)
    (date : Option Int) : DB × Except Err Appointment :=
  match businessId, serviceId, date with
  | some bid, some sid, some dt =>
    let apt : Appointment :=
      { id := newId, customerId := user.id, businessId := bid, serviceId := sid,
        staffId := staffId, date := dt, status := Status.PENDING,
        completionOtp := none, otpExpires := none }
    ({ db with appointments := db.appointments ++ [apt] }, Except.ok apt)
  | _, _, _ => (db, Except.error (400, "Business, service, and date are required"))

/-- The updateMany filter of cleanupExpiredAppointments: status PENDING,
date strictly before now, and the related business is owned by `ownerId`. -/
def expiredPendingOf (db : DB) (ownerId : Nat) (now : Int) (a : Appointment) : Bool :=
  decide (a.status = Status.PENDING) && decide (a.date < now) &&
    (match findBusiness db a.businessId with
     | some b => decide (b.ownerId = ownerId)
     | none => false)

/-- cleanupExpiredAppointments: batch-cancel the matching rows and return
the updated store together with the match count. -/
def cleanupExpiredAppointments (db : DB) (user : User) (now : Int) : DB × Nat :=
  ({ db with appointments := db.appointments.map (fun a =>
      if expiredPendingOf db user.id now a then { a with status := Status.CANCELLED } else a) },
   db.appointments.countP (expiredPendingOf db user.id now))

/-- A one-business store with no BusinessHour rows, for witnesses. -/
def emptyHoursDB : DB :=
  { businesses := [{ id := 1, ownerId := 3 }],
    services := [{ id := 1, duration := some 30 }],
    staffs := [], hours := [], appointments := [] }

/-- A store whose single business opens 09:00-10:00 on epoch weekday 4
with one CONFIRMED 30-minute appointment at 09:00. -/
def tinyDB : DB :=
  { businesses := [{ id := 1, ownerId := 3 }],
    services := [{ id := 1, duration := some 30 }],
    staffs := [],
    hours := [{ businessId := 1, dayOfWeek := 4, startHour := 9, startMinute := 0,
                  endHour := 10, endMinute := 0, isOpen := true }],
    appointments := [{ id := 10, customerId := 2, businessId := 1, serviceId := 1,
                         staffId := none, date := 32400000, status := Status.CONFIRMED,
                         completionOtp := none, otpExpires := none }] }

/-- tinyDB with the business marked closed on that weekday. -/
def closedDB : DB :=
  { tinyDB with
    hours := [{ businessId := 1, dayOfWeek := 4, startHour := 9, startMinute := 0,
                  endHour := 10, endMinute := 0, isOpen := false }] }

/-- Appointment 10: CONFIRMED, assigned to staff 5, outstanding OTP. -/
def demoApt10 : Appointment :=
  { id := 10, customerId := 2, businessId := 1, serviceId := 1, staffId := some 5,
    date := 32400000, status := Status.CONFIRMED,
    completionOtp := some "123456", otpExpires := some 33300000 }

/-- Appointment 11: PENDING and unassigned, business 1. -/
def demoApt11 : Appointment :=
  { id := 11, customerId := 2, businessId := 1, serviceId := 1, staffId := none,
    date := 36000000, status := Status.PENDING,
    completionOtp := none, otpExpires := none }

/-- Appointment 12: PENDING and unassigned, business 2. -/
def demoApt12 : Appointment :=
  { id := 12, customerId := 2, businessId := 2, serviceId := 1, staffId := none,
    date := 0, status := Status.PENDING,
    completionOtp := none, otpExpires := none }

/-- Appointment 13: CANCELLED (terminal), business 1. -/
def demoApt13 : Appointment :=
  { id := 13, customerId := 2, businessId := 1, serviceId := 1, staffId := none,
    date := 0, status := Status.CANCELLED,
    completionOtp := none, otpExpires := none }

/-- A two-business store used by the lifecycle witnesses. -/
def demoDB : DB :=
  { businesses := [{ id := 1, ownerId := 3 }, { id := 2, ownerId := 4 }],
    services := [{ id := 1, duration := some 30 }],
    staffs := [{ id := 5, userId := 7, businessId := 1 },
                { id := 6, userId := 8, businessId := 2 }],
    hours := [],
    appointments := [demoApt10, demoApt11, demoApt12, demoApt13] }

/-- The appointment a booking request at 09:00 on epoch day 0 creates. -/
def newApt99 : Appointment :=
  { id := 99, customerId := 2, businessId := 1, serviceId := 1, staffId := none,
    date := 32400000, status := Status.PENDING, completionOtp := none, otpExpires := none }

/-- The staff user whose profile is staff 5 of business 1. -/
def staff7 : User := { id := 7, role := "STAFF" }

/-- The owner of business 1. -/
def owner3 : User := { id := 3, role := "OWNER" }

/-- The customer who booked the demo appointments. -/
def cust2 : User := { id := 2, role := "CUSTOMER" }

lemma mem_genSlots (services : List Service) (appts : List Appointment)
    (dur : Nat) (now bEnd : Int) :
    ∀ cur s, s ∈ genSlots services appts dur now bEnd cur →
      s.available = ! slotIsBooked services appts s.time (s.time + (dur : Nat) * 60000) := by
  suffices H : ∀ m cur, (bEnd - cur).toNat = m →
      ∀ s ∈ genSlots services appts dur now bEnd cur,
        s.available = ! slotIsBooked services appts s.time (s.time + (dur : Nat) * 60000) by
    exact fun cur s h => H _ cur rfl s h
  intro m
  induction m using Nat.strong_induction_on with
  | _ m ih =>
    intro cur hm s hs
    rw [genSlots] at hs
    split_ifs at hs with h1 h2 h3
    · exact ih _ (by omega) _ rfl s hs
    · exact absurd hs (List.not_mem_nil s)
    · rcases List.mem_cons.mp hs with h | h
      · subst h; rfl
      · exact ih _ (by omega) _ rfl s h
    · exact absurd hs (List.not_mem_nil s)

lemma genSlots_congr (services : List Service) (appts1 appts2 : List Appointment)
    (dur : Nat) (now bEnd : Int)
    (h : ∀ a b, slotIsBooked services appts1 a b = slotIsBooked services appts2 a b) :
    ∀ cur, genSlots services appts1 dur now bEnd cur =
      genSlots services appts2 dur now bEnd cur := by
  suffices H : ∀ m cur, (bEnd - cur).toNat = m →
      genSlots services appts1 dur now bEnd cur = genSlots services appts2 dur now bEnd cur by
    exact fun cur => H _ cur rfl
  intro m
  induction m using Nat.strong_induction_on with
  | _ m ih =>
    intro cur hm
    conv_lhs => rw [genSlots]
    conv_rhs => rw [genSlots]
    split_ifs with h1 h2 h3
    · exact ih _ (by omega) _ rfl
    · rfl
    · rw [h, ih _ (by omega) _ rfl]
    · rfl

/-- C1: a candidate emitted by the slot query is flagged `available:false`
exactly when its half-open interval [start, start + serviceDuration)
overlaps, with strict inequalities on both sides, the interval
[apt.date, apt.date + apt.service.duration) of some appointment of that
business whose date lies in the selected day and whose status is PENDING
or CONFIRMED; terminal-status appointments and equal boundary touches
never make a candidate unavailable. -/
theorem slot_available_iff_no_overlap (db : DB) (businessId serviceId : Nat)
    (d0 now : Int) (service : Service) (slots : List Slot) (s : Slot)
    (hsvc : findService db.services serviceId = some service)
    (hres : getAvailableSlots db businessId serviceId d0 now = Except.ok slots)
    (hmem : s ∈ slots) :
    s.available = false ↔ ∃ apt ∈ db.appointments,
      (apt.businessId = businessId ∧ d0 ≤ apt.date ∧ apt.date ≤ d0 + 86399999 ∧
        (apt.status = Status.PENDING ∨ apt.status = Status.CONFIRMED)) ∧
      (s.time < aptEndTime db.services apt ∧
        s.time + (jsDuration service.duration : Nat) * 60000 > apt.date) := by
  rw [getAvailableSlots, hsvc] at hres
  simp only at hres
  split_ifs at hres with hpast
  · simp only [Except.ok.injEq] at hres
    subst hres
    exact absurd hmem (List.not_mem_nil s)
  · split at hres
    · simp only [Except.ok.injEq] at hres
      subst hres
      exact absurd hmem (List.not_mem_nil s)
    · split_ifs at hres with hopen
      · simp only [Except.ok.injEq] at hres
        subst hres
        exact absurd hmem (List.not_mem_nil s)
      · simp only [Except.ok.injEq] at hres
        subst hres
        have hav := mem_genSlots _ _ _ _ _ _ _ hmem
        rw [hav]
        simp only [Bool.not_eq_false', slotIsBooked, List.any_eq_true, List.mem_filter,
          onSelectedDay, decide_eq_true_eq]
        constructor
        · rintro ⟨apt, ⟨hm, hd⟩, hov⟩
          exact ⟨apt, hm, hd, hov⟩
        · rintro ⟨apt, hm, hd, hov⟩
          exact ⟨apt, ⟨hm, hd⟩, hov⟩

/-- Witness for C1: in tinyDB the 09:00 candidate is unavailable because
it overlaps the 09:00 CONFIRMED appointment. -/
theorem slot_available_iff_no_overlap_witness :
    (Slot.mk 32400000 false).available = false ↔ ∃ apt ∈ tinyDB.appointments,
      (apt.businessId = 1 ∧ (0:Int) ≤ apt.date ∧ apt.date ≤ 0 + 86399999 ∧
        (apt.status = Status.PENDING ∨ apt.status = Status.CONFIRMED)) ∧
      ((Slot.mk 32400000 false).time < aptEndTime tinyDB.services apt ∧
        (Slot.mk 32400000 false).time + (jsDuration (some 30) : Nat) * 60000 > apt.date) :=
  slot_available_iff_no_overlap tinyDB 1 1 0 0 { id := 1, duration := some 30 }
    [{ time := 32400000, available := false }, { time := 34200000, available := true }]
    (Slot.mk 32400000 false) rfl
    (by simp +decide [getAvailableSlots, genSlots, tinyDB, findService, jsDuration,
          slotIsBooked, aptEndTime, aptServiceDuration, onSelectedDay])
    (by simp)

/-- C8: the slot query returns the empty sequence when the whole selected
day lies strictly before now, when no BusinessHour row exists for the
business and weekday, and when that row's isOpen flag is false. -/
theorem slots_empty_cases (db : DB) (businessId serviceId : Nat)
    (d0 now : Int) (service : Service)
    (hsvc : findService db.services serviceId = some service) :
    (d0 + 86399999 < now →
      getAvailableSlots db businessId serviceId d0 now = Except.ok []) ∧
    (db.hours.find? (fun h =>
        decide (h.businessId = businessId ∧ h.dayOfWeek = jsDayOfWeek d0)) = none →
      getAvailableSlots db businessId serviceId d0 now = Except.ok []) ∧
    (∀ bh, db.hours.find? (fun h =>
        decide (h.businessId = businessId ∧ h.dayOfWeek = jsDayOfWeek d0)) = some bh →
      bh.isOpen = false →
      getAvailableSlots db businessId serviceId d0 now = Except.ok []) := by
  refine ⟨fun hpast => ?_, fun hnone => ?_, fun bh hsome hclosed => ?_⟩
  · rw [getAvailableSlots, hsvc]
    simp [hpast]
  · rw [getAvailableSlots, hsvc]
    simp only
    split_ifs with hpast
    · rfl
    · rw [hnone]
  · rw [getAvailableSlots, hsvc]
    simp only
    split_ifs with hpast
    · rfl
    · rw [hsome]
      simp [hclosed]

/-- Witness for C8 at a concrete store. -/
theorem slots_empty_cases_witness :
    getAvailableSlots emptyHoursDB 1 1 0 86400000 = Except.ok [] :=
  (slots_empty_cases emptyHoursDB 1 1 0 86400000 { id := 1, duration := some 30 }
    rfl).1 (by norm_num)

/-- C10: the slot query never reads staffId — rewriting the staff
assignment of every stored appointment in any way leaves the whole
response unchanged, so appointments block candidates business-wide
regardless of which staff member (if any) holds them. -/
theorem slots_ignore_staff_assignment (db : DB) (businessId serviceId : Nat)
    (d0 now : Int) (f : Appointment → Option Nat) :
    getAvailableSlots
      { db with appointments := db.appointments.map (fun a => { a with staffId := f a }) }
      businessId serviceId d0 now =
    getAvailableSlots db businessId serviceId d0 now := by
  rw [getAvailableSlots, getAvailableSlots]
  simp only
  cases hsvc : findService db.services serviceId with
  | none => rfl
  | some service =>
    simp only
    split_ifs with hpast
    · rfl
    · cases hbh : db.hours.find? (fun h =>
          decide (h.businessId = businessId ∧ h.dayOfWeek = jsDayOfWeek d0)) with
      | none => rfl
      | some bh =>
        simp only
        split_ifs with hopen
        · rfl
        · have hfilt : (db.appointments.map (fun a => { a with staffId := f a })).filter
              (onSelectedDay businessId d0 (d0 + 86399999)) =
              (db.appointments.filter (onSelectedDay businessId d0 (d0 + 86399999))).map
                (fun a => { a with staffId := f a }) := by
            rw [List.filter_map]
            rfl
          rw [hfilt]
          congr 1
          apply genSlots_congr
          intro a b
          rw [slotIsBooked, slotIsBooked, List.any_map]
          rfl

lemma findAppointment_updateAppointment (db : DB) (i j : Nat)
    (f : Appointment → Appointment) (hf : ∀ a, (f a).id = a.id) :
    findAppointment (updateAppointment db i f) j =
      (findAppointment db j).map (fun a => if a.id = i then f a else a) := by
  unfold findAppointment updateAppointment
  simp only
  induction db.appointments with
  | nil => rfl
  | cons a t ih =>
    have hid : (if a.id = i then f a else a).id = a.id := by
      split
      · exact hf a
      · rfl
    by_cases haj : a.id = j
    · rw [List.map_cons, List.find?_cons_of_pos _ (by rw [hid]; simpa using haj),
        List.find?_cons_of_pos _ (by simpa using haj)]
      simp
    · rw [List.map_cons, List.find?_cons_of_neg _ (by rw [hid]; simpa using haj),
        List.find?_cons_of_neg _ (by simpa using haj), ih]

lemma verifyCompletion_eq (db : DB) (user : User) (id : Nat)
    (otp : Option String) (apt : Appointment) (business : Business)
    (hapt : findAppointment db id = some apt)
    (hbus : findBusiness db apt.businessId = some business)
    (hauth : business.ownerId = user.id ∨ staffAssigned db user apt = true) :
    verifyCompletion db user id otp =
      if apt.completionOtp = otp then
        (updateAppointment db id (fun a =>
          { a with status := Status.COMPLETED, completionOtp := none, otpExpires := none }),
         Except.ok { apt with status := Status.COMPLETED,
                              completionOtp := none, otpExpires := none })
      else (db, Except.error (400, "Invalid OTP")) := by
  have hauth' : ¬ ¬ (business.ownerId = user.id ∨ staffAssigned db user apt = true) :=
    not_not_intro hauth
  by_cases hotp : apt.completionOtp = otp
  · simp [verifyCompletion, verifyCompletionFull, hapt, hbus, hauth', hotp]
  · simp [verifyCompletion, verifyCompletionFull, hapt, hbus, hauth', hotp]

/-- C5: for an authorized actor on an existing appointment, OTP
verification fails with Validation error 400 and changes nothing when the
submitted code differs from the stored completionOtp; when it matches,
the status becomes COMPLETED and both completionOtp and otpExpires are
cleared; and the response never depends on otpExpires (no expiry check at
verification time). -/
theorem verifyCompletion_spec (db : DB) (user : User) (id : Nat)
    (otp : Option String) (apt : Appointment) (business : Business)
    (hapt : findAppointment db id = some apt)
    (hbus : findBusiness db apt.businessId = some business)
    (hauth : business.ownerId = user.id ∨ staffAssigned db user apt = true) :
    (apt.completionOtp ≠ otp →
      verifyCompletion db user id otp = (db, Except.error (400, "Invalid OTP"))) ∧
    (apt.completionOtp = otp →
      verifyCompletion db user id otp =
        (updateAppointment db id (fun a =>
          { a with status := Status.COMPLETED, completionOtp := none, otpExpires := none }),
         Except.ok { apt with status := Status.COMPLETED,
                              completionOtp := none, otpExpires := none })) ∧
    (∀ e, (verifyCompletion (updateAppointment db id (fun a => { a with otpExpires := e }))
        user id otp).2 = (verifyCompletion db user id otp).2) := by
  have hbase := verifyCompletion_eq db user id otp apt business hapt hbus hauth
  refine ⟨fun hne => ?_, fun heq => ?_, fun e => ?_⟩
  · rw [hbase, if_neg hne]
  · rw [hbase, if_pos heq]
  · have hpid : apt.id = id := by
      have h1 : db.appointments.find? (fun a => decide (a.id = id)) = some apt := hapt
      simpa using List.find?_some h1
    have hapt' : findAppointment (updateAppointment db id (fun a => { a with otpExpires := e }))
        id = some { apt with otpExpires := e } := by
      rw [findAppointment_updateAppointment db id id (fun a => { a with otpExpires := e })
        (fun a => rfl), hapt]
      simp [hpid]
    have hbus' : findBusiness (updateAppointment db id (fun a => { a with otpExpires := e }))
        { apt with otpExpires := e }.businessId = some business := hbus
    have hstaff' : staffAssigned (updateAppointment db id (fun a => { a with otpExpires := e }))
        user { apt with otpExpires := e } = staffAssigned db user apt := rfl
    have hprimed := verifyCompletion_eq
      (updateAppointment db id (fun a => { a with otpExpires := e })) user id otp
      { apt with otpExpires := e } business hapt' hbus'
      (by rw [hstaff']; exact hauth)
    rw [hbase, hprimed]
    by_cases hotp : apt.completionOtp = otp
    · simp only [show ({ apt with otpExpires := e } : Appointment).completionOtp =
        apt.completionOtp from rfl, if_pos hotp]
    · simp only [show ({ apt with otpExpires := e } : Appointment).completionOtp =
        apt.completionOtp from rfl, if_neg hotp]

/-- Witness for C5: owner verifies appointment 10 in demoDB; the wrong
code fails with 400, the right code completes and clears the OTP state. -/
theorem verifyCompletion_spec_witness :
    verifyCompletion demoDB owner3 10 (some "000000") =
      (demoDB, Except.error (400, "Invalid OTP")) ∧
    verifyCompletion demoDB owner3 10 (some "123456") =
      (updateAppointment demoDB 10 (fun a =>
        { a with status := Status.COMPLETED, completionOtp := none, otpExpires := none }),
       Except.ok { demoApt10 with status := Status.COMPLETED,
                                  completionOtp := none, otpExpires := none }) :=
  ⟨(verifyCompletion_spec demoDB owner3 10 (some "000000") demoApt10
      { id := 1, ownerId := 3 } rfl rfl (Or.inl rfl)).1 (by decide),
   (verifyCompletion_spec demoDB owner3 10 (some "123456") demoApt10
      { id := 1, ownerId := 3 } rfl rfl (Or.inl rfl)).2.1 (by decide)⟩

/-- C6: a staff claim on an existing appointment fails with Forbidden 403
when the appointment belongs to a different business, fails with
Validation 400 when a staff member is already assigned, and otherwise
assigns the claiming staff profile's id; failures change nothing. -/
theorem claimAppointment_spec (db : DB) (user : User) (id : Nat)
    (staff : Staff) (apt : Appointment)
    (hstaff : findStaffByUser db user.id = some staff)
    (hapt : findAppointment db id = some apt) :
    (apt.businessId ≠ staff.businessId →
      claimAppointment db user id =
        (db, Except.error (403, "Not authorized - different business"))) ∧
    (apt.businessId = staff.businessId → apt.staffId ≠ none →
      claimAppointment db user id =
        (db, Except.error (400, "Appointment already assigned"))) ∧
    (apt.businessId = staff.businessId → apt.staffId = none →
      claimAppointment db user id =
        (updateAppointment db id (fun a => { a with staffId := some staff.id }),
         Except.ok { apt with staffId := some staff.id })) := by
  refine ⟨fun hdiff => ?_, fun hsame hassigned => ?_, fun hsame hnone => ?_⟩
  · simp [claimAppointment, claimAppointmentFull, hstaff, hapt, hdiff]
  · simp [claimAppointment, claimAppointmentFull, hstaff, hapt, hsame, hassigned]
  · simp [claimAppointment, claimAppointmentFull, hstaff, hapt, hsame, hnone]

/-- Witness for C6 in demoDB: staff 5 cannot claim the business-2
appointment 12, cannot claim the already-assigned appointment 10, and
successfully claims the unassigned appointment 11. -/
theorem claimAppointment_spec_witness :
    claimAppointment demoDB staff7 12 =
      (demoDB, Except.error (403, "Not authorized - different business")) ∧
    claimAppointment demoDB staff7 10 =
      (demoDB, Except.error (400, "Appointment already assigned")) ∧
    claimAppointment demoDB staff7 11 =
      (updateAppointment demoDB 11 (fun a => { a with staffId := some 5 }),
       Except.ok { demoApt11 with staffId := some 5 }) :=
  ⟨(claimAppointment_spec demoDB staff7 12 { id := 5, userId := 7, businessId := 1 }
      demoApt12 rfl rfl).1 (by decide),
   (claimAppointment_spec demoDB staff7 10 { id := 5, userId := 7, businessId := 1 }
      demoApt10 rfl rfl).2.1 (by decide) (by decide),
   (claimAppointment_spec demoDB staff7 11 { id := 5, userId := 7, businessId := 1 }
      demoApt11 rfl rfl).2.2 (by decide) (by decide)⟩

/-- C7: cleanup by an owner cancels exactly the PENDING appointments of
that owner's businesses whose date is strictly before now, leaves every
other appointment (and the list length) unchanged, and returns the number
of matching appointments. -/
theorem cleanup_spec (db : DB) (user : User) (now : Int) :
    (cleanupExpiredAppointments db user now).2 =
      (db.appointments.filter (expiredPendingOf db user.id now)).length ∧
    (cleanupExpiredAppointments db user now).1.appointments.length =
      db.appointments.length ∧
    (∀ i, (h : i < db.appointments.length) →
      (cleanupExpiredAppointments db user now).1.appointments[i]? =
        some (if expiredPendingOf db user.id now db.appointments[i] then
          { db.appointments[i] with status := Status.CANCELLED }
        else db.appointments[i])) ∧
    (∀ a, expiredPendingOf db user.id now a = true ↔
      (a.status = Status.PENDING ∧ a.date < now ∧
        ∃ b, findBusiness db a.businessId = some b ∧ b.ownerId = user.id)) := by
  refine ⟨?_, ?_, fun i h => ?_, fun a => ?_⟩
  · simp [cleanupExpiredAppointments, List.countP_eq_length_filter]
  · simp [cleanupExpiredAppointments]
  · simp [cleanupExpiredAppointments, List.getElem?_map, List.getElem?_eq_getElem h]
  · constructor
    · intro hpred
      simp only [expiredPendingOf, Bool.and_eq_true, decide_eq_true_eq] at hpred
      obtain ⟨⟨h1, h2⟩, h3⟩ := hpred
      refine ⟨h1, h2, ?_⟩
      cases hb : findBusiness db a.businessId with
      | none => rw [hb] at h3; exact absurd h3 (by simp)
      | some b => rw [hb] at h3; exact ⟨b, rfl, by simpa using h3⟩
    · rintro ⟨h1, h2, b, hb, h3⟩
      simp [expiredPendingOf, h1, h2, hb, h3]

/-- Witness for C7 in demoDB at a late clock: only the past PENDING
appointment of owner 3's business is cancelled, and the count is 1. -/
theorem cleanup_spec_witness :
    (cleanupExpiredAppointments demoDB owner3 99999999).2 = 1 ∧
    (cleanupExpiredAppointments demoDB owner3 99999999).1.appointments[1]? =
      some { demoApt11 with status := Status.CANCELLED } := by
  refine ⟨?_, ?_⟩
  · rw [(cleanup_spec demoDB owner3 99999999).1]
    decide
  · rw [(cleanup_spec demoDB owner3 99999999).2.2.1 1 (by decide)]
    decide

/-- C2 counterexample: the assigned staff member of demo appointment 10
requests COMPLETED (and NO_SHOW) through the status-update operation and
is rejected with Forbidden 403, although the claim says the request
passes the authorization check. -/
theorem staff_completed_request_cex :
    staffAssigned demoDB staff7 demoApt10 = true ∧
    (updateAppointmentStatus demoDB staff7 10 "COMPLETED").2 =
      Except.error (403, "Staff can only confirm appointments") ∧
    (updateAppointmentStatus demoDB staff7 10 "NO_SHOW").2 =
      Except.error (403, "Staff can only confirm appointments") :=
  ⟨rfl, rfl, rfl⟩

/-- C2 (amended): for an assigned STAFF actor who is not the booking
customer, the generic status-update operation permits only CONFIRMED —
CANCELLED fails with the staff-cannot-cancel Forbidden error and both
COMPLETED and NO_SHOW fail with the staff-can-only-confirm Forbidden
error — while the dedicated markAsCompleted and markAsNoShow operations
do let the assigned staff member reach COMPLETED and NO_SHOW. -/
theorem staff_transition_rights (db : DB) (user : User) (id : Nat)
    (apt : Appointment) (business : Business) (staffP : Staff)
    (hapt : findAppointment db id = some apt)
    (hbus : findBusiness db apt.businessId = some business)
    (hrole : user.role = "STAFF")
    (hprof : findStaffByUser db user.id = some staffP)
    (hassigned : apt.staffId = some staffP.id)
    (hnotcust : apt.customerId ≠ user.id) :
    updateAppointmentStatus db user id "CONFIRMED" =
      (updateAppointment db id (fun a => { a with status := Status.CONFIRMED }),
       Except.ok { apt with status := Status.CONFIRMED }) ∧
    updateAppointmentStatus db user id "CANCELLED" =
      (db, Except.error (403, "Staff cannot cancel appointments. Please contact the owner.")) ∧
    updateAppointmentStatus db user id "COMPLETED" =
      (db, Except.error (403, "Staff can only confirm appointments")) ∧
    updateAppointmentStatus db user id "NO_SHOW" =
      (db, Except.error (403, "Staff can only confirm appointments")) ∧
    markAsCompleted db user id =
      (updateAppointment db id (fun a => { a with status := Status.COMPLETED }),
       Except.ok { apt with status := Status.COMPLETED }) ∧
    markAsNoShow db user id =
      (updateAppointment db id (fun a => { a with status := Status.NO_SHOW }),
       Except.ok { apt with status := Status.NO_SHOW }) := by
  have hstaff : staffAssigned db user apt = true := by
    simp [staffAssigned, hrole, hprof, hassigned]
  refine ⟨?_, ?_, ?_, ?_, ?_, ?_⟩ <;>
    simp +decide [updateAppointmentStatus, updateAppointmentStatusFull, markAsCompleted,
      markAsNoShow, hapt, hbus, hstaff, hnotcust, statusOfString]

/-- Witness for C2 (amended) at demo appointment 10. -/
theorem staff_transition_rights_witness :
    updateAppointmentStatus demoDB staff7 10 "CONFIRMED" =
      (updateAppointment demoDB 10 (fun a => { a with status := Status.CONFIRMED }),
       Except.ok { demoApt10 with status := Status.CONFIRMED }) ∧
    markAsCompleted demoDB staff7 10 =
      (updateAppointment demoDB 10 (fun a => { a with status := Status.COMPLETED }),
       Except.ok { demoApt10 with status := Status.COMPLETED }) := by
  have h := staff_transition_rights demoDB staff7 10 demoApt10 { id := 1, ownerId := 3 }
    { id := 5, userId := 7, businessId := 1 } rfl rfl rfl rfl rfl (by decide)
  exact ⟨h.1, h.2.2.2.2.1⟩

/-- C3 counterexample: demo appointment 13 is CANCELLED (a terminal
status), yet the owner's status-update request succeeds and moves it to
CONFIRMED, so a terminal state does admit a further transition. -/
theorem terminal_transition_cex :
    (findAppointment demoDB 13).map Appointment.status = some Status.CANCELLED ∧
    (updateAppointmentStatus demoDB owner3 13 "CONFIRMED").2 =
      Except.ok { demoApt13 with status := Status.CONFIRMED } ∧
    (findAppointment (updateAppointmentStatus demoDB owner3 13 "CONFIRMED").1 13).map
      Appointment.status = some Status.CONFIRMED :=
  ⟨rfl, rfl, rfl⟩

/-- C3 (amended): no lifecycle operation inspects the current status, so
CANCELLED/COMPLETED/NO_SHOW are not enforced as terminal: an owner's
status update succeeds on a terminal appointment, and OTP verification
completes a terminal appointment whenever the stored code matches. -/
theorem no_terminal_enforcement (db : DB) (user : User) (id : Nat)
    (apt : Appointment) (business : Business)
    (hapt : findAppointment db id = some apt)
    (hbus : findBusiness db apt.businessId = some business)
    (howner : business.ownerId = user.id)
    (hrole : user.role ≠ "STAFF")
    (hnotcust : apt.customerId ≠ user.id)
    (hterm : apt.status = Status.CANCELLED ∨ apt.status = Status.COMPLETED ∨
      apt.status = Status.NO_SHOW) :
    updateAppointmentStatus db user id "CONFIRMED" =
      (updateAppointment db id (fun a => { a with status := Status.CONFIRMED }),
       Except.ok { apt with status := Status.CONFIRMED }) ∧
    (∀ otp, apt.completionOtp = otp →
      verifyCompletion db user id otp =
        (updateAppointment db id (fun a =>
          { a with status := Status.COMPLETED, completionOtp := none, otpExpires := none }),
         Except.ok { apt with status := Status.COMPLETED,
                              completionOtp := none, otpExpires := none })) := by
  have hstaff : staffAssigned db user apt = false := by
    simp [staffAssigned, hrole]
  refine ⟨?_, fun otp hotp => ?_⟩
  · simp +decide [updateAppointmentStatus, updateAppointmentStatusFull, hapt, hbus,
      howner, hstaff, hnotcust, statusOfString]
  · exact (verifyCompletion_spec db user id otp apt business hapt hbus
      (Or.inl howner)).2.1 hotp

/-- Witness for C3 (amended): the CANCELLED demo appointment 13 is
re-confirmed by the owner and completed by OTP verification. -/
theorem no_terminal_enforcement_witness :
    updateAppointmentStatus demoDB owner3 13 "CONFIRMED" =
      (updateAppointment demoDB 13 (fun a => { a with status := Status.CONFIRMED }),
       Except.ok { demoApt13 with status := Status.CONFIRMED }) ∧
    verifyCompletion demoDB owner3 13 none =
      (updateAppointment demoDB 13 (fun a =>
        { a with status := Status.COMPLETED, completionOtp := none, otpExpires := none }),
       Except.ok { demoApt13 with status := Status.COMPLETED,
                                  completionOtp := none, otpExpires := none }) := by
  have h := no_terminal_enforcement demoDB owner3 13 demoApt13 { id := 1, ownerId := 3 }
    rfl rfl rfl (by decide) (by decide) (Or.inl rfl)
  exact ⟨h.1, h.2 none rfl⟩

/-- C4 counterexample: with the business closed on the requested weekday
and a CONFIRMED appointment already occupying 09:00, the booking request
for 09:00 is still created in PENDING state — no slot validation happens
before creation, although the claim says an out-of-hours or overlapping
booking is not created. -/
theorem booking_no_validation_cex :
    (createAppointment closedDB cust2 99 (some 1) (some 1) none (some 32400000)).2 =
      Except.ok newApt99 ∧
    newApt99 ∈ (createAppointment closedDB cust2 99 (some 1) (some 1) none
      (some 32400000)).1.appointments ∧
    newApt99.status = Status.PENDING ∧
    slotIsBooked closedDB.services closedDB.appointments newApt99.date
      (newApt99.date + 30 * 60000) = true ∧
    (closedDB.hours.find? (fun h =>
      decide (h.businessId = 1 ∧ h.dayOfWeek = jsDayOfWeek 0))).map
      BusinessHour.isOpen = some false := by
  refine ⟨rfl, by decide, rfl, by decide, by decide⟩

/-- C4 (amended): appointment creation performs no validation against
business hours or existing appointments: whenever businessId, serviceId
and date are present, the appointment is created in PENDING state with
exactly the requested fields, unconditionally. -/
theorem createAppointment_unconditional (db : DB) (user : User) (newId bid sid : Nat)
    (staffId : Option Nat) (dt : Int) :
    createAppointment db user newId (some bid) (some sid) staffId (some dt) =
      ({ db with appointments := db.appointments ++
          [{ id := newId, customerId := user.id, businessId := bid, serviceId := sid,
             staffId := staffId, date := dt, status := Status.PENDING,
             completionOtp := none, otpExpires := none }] },
       Except.ok { id := newId, customerId := user.id, businessId := bid, serviceId := sid,
                   staffId := staffId, date := dt, status := Status.PENDING,
                   completionOtp := none, otpExpires := none }) := rfl

/-- C9: the store state and the response of the status update, the OTP
verification and the claim operation are identical under any two
notification dispatchers — a throwing dispatcher can never fail or roll
back the transition, because notifyUser catches and only logs. -/
theorem notification_failure_isolated (d1 d2 : Dispatcher) (db : DB) (user : User)
    (id : Nat) (status : String) (otp : Option String) :
    (updateAppointmentStatusFull d1 db user id status).1 =
      (updateAppointmentStatusFull d2 db user id status).1 ∧
    (verifyCompletionFull d1 db user id otp).1 =
      (verifyCompletionFull d2 db user id otp).1 ∧
    (claimAppointmentFull d1 db user id).1 = (claimAppointmentFull d2 db user id).1 := by
  refine ⟨?_, ?_, ?_⟩
  · simp only [updateAppointmentStatusFull]
    by_cases h1 : ¬ (status = "CONFIRMED" ∨ status = "CANCELLED" ∨
        status = "COMPLETED" ∨ status = "NO_SHOW")
    · rw [if_pos h1, if_pos h1]
    · rw [if_neg h1, if_neg h1]
      cases findAppointment db id with
      | none => rfl
      | some apt =>
        dsimp only
        cases findBusiness db apt.businessId with
        | none => rfl
        | some business =>
          dsimp only
          by_cases h2 : ¬ (business.ownerId = user.id ∨ apt.customerId = user.id ∨
              staffAssigned db user apt = true)
          · rw [if_pos h2, if_pos h2]
          · rw [if_neg h2, if_neg h2]
            by_cases h3 : apt.customerId = user.id ∧ status ≠ "CANCELLED"
            · rw [if_pos h3, if_pos h3]
            · rw [if_neg h3, if_neg h3]
              by_cases h4 : staffAssigned db user apt = true ∧ status = "CANCELLED"
              · rw [if_pos h4, if_pos h4]
              · rw [if_neg h4, if_neg h4]
                by_cases h5 : staffAssigned db user apt = true ∧ status ≠ "CONFIRMED"
                · rw [if_pos h5, if_pos h5]
                · rw [if_neg h5, if_neg h5]
  · simp only [verifyCompletionFull]
    cases findAppointment db id with
    | none => rfl
    | some apt =>
      dsimp only
      cases findBusiness db apt.businessId with
      | none => rfl
      | some business =>
        dsimp only
        by_cases h2 : ¬ (business.ownerId = user.id ∨ staffAssigned db user apt = true)
        · rw [if_pos h2, if_pos h2]
        · rw [if_neg h2, if_neg h2]
          by_cases h3 : apt.completionOtp ≠ otp
          · rw [if_pos h3, if_pos h3]
          · rw [if_neg h3, if_neg h3]
  · simp only [claimAppointmentFull]
    cases findStaffByUser db user.id with
    | none => rfl
    | some staff =>
      dsimp only
      cases findAppointment db id with
      | none => rfl
      | some apt =>
        dsimp only
        by_cases h2 : apt.businessId ≠ staff.businessId
        · rw [if_pos h2, if_pos h2]
        · rw [if_neg h2, if_neg h2]
          by_cases h3 : apt.staffId ≠ none
          · rw [if_pos h3, if_pos h3]
          · rw [if_neg h3, if_neg h3]

end BookSaloon
